import Mathlib

/-!
# sway/desktop/xdg_shell_v6.c

A shallow embedding of the xdg-shell-v6 adapter of sway: the five view
capability operations (`get_prop`, `set_size`, `set_position`,
`set_activated`, `close`), the four signal handlers (`handle_commit`,
`handle_map`, `handle_unmap`, `handle_destroy`) and the constructor
`handle_xdg_shell_v6_surface`.

Conventions of the embedding.

* A C pointer is an `Option Nat`: `none` is `NULL`, `some n` is the address `n`.
  Each C struct type has its own store (`World.views`, `World.records`, ...),
  a map from addresses to the struct value; an address that is not mapped is
  not allocated (never allocated, or freed).
* Every function of the file works on a `World` and returns `Option`:
  `none` stands for undefined behaviour of the C code (a dereference of `NULL`
  or of freed memory).
* Calls that leave the file (wlroots requests, tree, seat and damage
  collaborators, diagnostics, `free`) are appended to `World.trace` in the
  order in which the C code makes them.
* C `int` values are `Int`; the file does no arithmetic on them.
-/

namespace XdgShellV6

/-- A C pointer: `none` is `NULL`. -/
abbrev Ptr := Option Nat

/-! ## Types declared in headers -/

/-- The `enum sway_view_type` of `sway/tree/view.h`. -/
inductive sway_view_type where
  | SWAY_WL_SHELL_VIEW
  | SWAY_XDG_SHELL_V6_VIEW
  | SWAY_XWAYLAND_VIEW
  deriving DecidableEq, Repr

/-- The `enum sway_view_prop` of `sway/tree/view.h`. -/
inductive sway_view_prop where
  | VIEW_PROP_TITLE
  | VIEW_PROP_APP_ID
  | VIEW_PROP_CLASS
  | VIEW_PROP_INSTANCE
  deriving DecidableEq, Repr

/-- The `enum wlr_xdg_surface_v6_role` of wlroots. -/
inductive wlr_xdg_surface_v6_role where
  | WLR_XDG_SURFACE_V6_ROLE_NONE
  | WLR_XDG_SURFACE_V6_ROLE_TOPLEVEL
  | WLR_XDG_SURFACE_V6_ROLE_POPUP
  deriving DecidableEq, Repr

/-- The fields of `struct wlr_xdg_toplevel_v6` the file reads (both `char *`). -/
structure wlr_xdg_toplevel_v6 where
  title : Option String
  app_id : Option String
  deriving DecidableEq, Repr

/-- The fields of `struct wlr_xdg_surface_v6` the file reads. `toplevel` is the
pointee of the `toplevel` pointer (`none` when the pointer is `NULL`);
`surface` is the `struct wlr_surface *`. -/
structure wlr_xdg_surface_v6 where
  role : wlr_xdg_surface_v6_role
  toplevel : Option wlr_xdg_toplevel_v6
  surface : Ptr
  deriving DecidableEq, Repr

/-- The functions of this file that are stored in function pointers. -/
inductive xdg_fn where
  | get_prop | set_size | set_position | set_activated | close
  | handle_commit | handle_map | handle_unmap | handle_destroy
  deriving DecidableEq, Repr

/-- The `iface` member of `struct sway_view`: five function pointers. -/
structure sway_view_iface where
  get_prop : Option xdg_fn
  set_size : Option xdg_fn
  set_position : Option xdg_fn
  set_activated : Option xdg_fn
  close : Option xdg_fn
  deriving DecidableEq, Repr

/-- The fields of `struct sway_view` the file uses. -/
structure sway_view where
  type : sway_view_type
  swayc : Ptr
  surface : Ptr
  width : Int
  height : Int
  wlr_xdg_surface_v6 : Ptr
  sway_xdg_surface_v6 : Ptr
  iface : sway_view_iface
  deriving DecidableEq, Repr

/-- The four `struct wl_listener` members of `struct sway_xdg_surface_v6`. -/
inductive listener_member where
  | commit | map | unmap | destroy
  deriving DecidableEq, Repr

/-- The `struct sway_xdg_surface_v6` (the adapter record). Of each listener
member the `notify` pointer is a field; its `link` is represented by the
signal lists of the world. -/
structure sway_xdg_surface_v6 where
  view : Ptr
  commit_notify : Option xdg_fn
  map_notify : Option xdg_fn
  unmap_notify : Option xdg_fn
  destroy_notify : Option xdg_fn
  pending_width : Int
  pending_height : Int
  deriving DecidableEq, Repr

/-- The fields of `struct sway_container` the file uses. The coordinates are C
doubles that are only stored, never computed with; they are kept as integers. -/
structure sway_container where
  parent : Ptr
  sway_view : Ptr
  x : Int
  y : Int
  deriving DecidableEq, Repr

/-- The address of a listener: a member of the adapter record at `owner`
(`wl_container_of` recovers `owner` from it). -/
structure Listener where
  owner : Nat
  member : listener_member
  deriving DecidableEq, Repr

/-- The signals the file subscribes to: `events.commit` of a `wlr_surface`, and
`events.map`, `events.unmap`, `events.destroy` of a `wlr_xdg_surface_v6`. -/
inductive Signal where
  | surface_commit (wlr_surface : Nat)
  | xdg_map (xdg_surface : Nat)
  | xdg_unmap (xdg_surface : Nat)
  | xdg_destroy (xdg_surface : Nat)
  deriving DecidableEq, Repr

/-- The diagnostics the file can write. -/
inductive Diagnostic where
  | expected_xdg_shell_v6_view
  | failed_to_allocate_surface
  | failed_to_allocate_view
  | new_toplevel (title app_id : Option String)
  deriving DecidableEq, Repr

/-- A call that leaves the file. A call that is handed a view pointer records
the view as the callee finds it at that moment. -/
inductive Event where
  | log (d : Diagnostic)
  | wlr_xdg_toplevel_v6_set_size (xdg_surface : Ptr) (width height : Int)
  | wlr_xdg_toplevel_v6_set_activated (xdg_surface : Ptr) (activated : Bool)
  | wlr_xdg_surface_v6_send_close (xdg_surface : Ptr)
  | wlr_xdg_surface_v6_ping (xdg_surface : Ptr)
  | wlr_xdg_toplevel_v6_set_maximized (xdg_surface : Ptr) (maximized : Bool)
  | view_damage_from (view : Nat) (seen : sway_view)
  | view_damage_whole (view : Nat) (seen : sway_view)
  | container_view_destroy (node : Ptr)
  | seat_get_focus_inactive (result : Ptr)
  | container_view_create (anchor : Ptr) (view : Nat) (seen : sway_view) (result : Ptr)
  | arrange_windows (container : Ptr) (width height : Int)
  | sway_input_manager_set_focus (container : Ptr)
  | free_view (view : Nat)
  | free_record (record : Nat)
  deriving DecidableEq, Repr

/-- The state the file works on. -/
structure World where
  /-- The protocol objects, owned by wlroots. -/
  xdg_surfaces : Nat → Option wlr_xdg_surface_v6
  /-- The allocated `struct sway_view`s. -/
  views : Nat → Option sway_view
  /-- The allocated adapter records. -/
  records : Nat → Option sway_xdg_surface_v6
  /-- The tree nodes. -/
  containers : Nat → Option sway_container
  /-- The listeners linked into each signal, in the order of `wl_signal_add`. -/
  signals : Signal → List Listener
  /-- The containers the current seat has had in focus, the most recent first;
  the first one is what the seat reports as its inactive focus below the root. -/
  seat_focus_stack : List Nat
  /-- The next addresses `calloc` and the tree hand out (never reused). -/
  next_view : Nat
  next_record : Nat
  next_container : Nat
  /-- How many further allocations `calloc` will satisfy. -/
  calloc_fuel : Nat
  /-- The calls made so far, oldest first. -/
  trace : List Event

/-- Appends one call to the trace. -/
def emit (w : World) (e : Event) : World :=
  { w with trace := w.trace ++ [e] }

/-! ## Collaborators outside the file -/

/-- Modelled from the spec: `sway_assert` (a macro of `log.h`, not in this
file). On a false condition the failure is logged and the caller turns into a
no-op ("logged, operation becomes a no-op"); the value of the condition is
returned. -/
def sway_assert (w : World) (cond : Bool) (d : Diagnostic) : Bool × World :=
  if cond then (true, w) else (false, emit w (.log d))

/-- Modelled from the spec: `destroy_node(node)`, the `container_view_destroy`
of the tree. The node leaves the tree, and with it the focus history of the
seat; a `NULL` argument destroys nothing. -/
def container_view_destroy (w : World) (node : Ptr) : World :=
  emit { w with
      containers := fun c => if some c = node then none else w.containers c
      seat_focus_stack := w.seat_focus_stack.filter (fun c => decide (some c ≠ node)) }
    (.container_view_destroy node)

/-- Modelled from the spec: `get_inactive_focus(seat, root) -> container`, the
`seat_get_focus_inactive` of the current seat ("the container currently
holding inactive focus for the active input seat"). -/
def seat_get_focus_inactive (w : World) : Ptr × World :=
  (w.seat_focus_stack.head?, emit w (.seat_get_focus_inactive w.seat_focus_stack.head?))

/-- Modelled from the spec: `create_node(anchor, view) -> node`, the
`container_view_create` of the tree: a new node for the view is created under
the anchor ("B's node becomes child of A's container"). -/
def container_view_create (w : World) (anchor : Ptr) (view : Nat) : Option (Ptr × World) := do
  let seen ← w.views view
  let c := w.next_container
  pure (some c, emit { w with
      containers := fun n => if n = c then
        some { parent := anchor, sway_view := some view, x := 0, y := 0 } else w.containers n
      next_container := c + 1 }
    (.container_view_create anchor view seen (some c)))

/-- Modelled from the spec: `request_arrangement(subtree)`, the
`arrange_windows` of the layout code; the layout algorithm itself is out of
scope. -/
def arrange_windows (w : World) (container : Ptr) (width height : Int) : World :=
  emit w (.arrange_windows container width height)

/-- Modelled from the spec: `set_focus(node)`, the
`sway_input_manager_set_focus`: "the new node becomes the seat's active
focus", and it is the seat's inactive focus for the next lookup ("since A is
now the inactive-focus anchor"). -/
def sway_input_manager_set_focus (w : World) (container : Nat) : World :=
  emit { w with
      seat_focus_stack :=
        container :: w.seat_focus_stack.filter (fun c => decide (c ≠ container)) }
    (.sway_input_manager_set_focus (some container))

/-- The `wl_signal_add` of libwayland: the listener is appended to the signal. -/
def wl_signal_add (w : World) (sig : Signal) (l : Listener) : World :=
  { w with signals := fun s => if s = sig then w.signals s ++ [l] else w.signals s }

/-- The `wl_list_remove` of libwayland on the link of a listener: the listener
leaves the signal it is linked into. The link is memory of the adapter record
the listener is a member of, which has to be allocated. -/
def wl_list_remove (w : World) (l : Listener) : Option World := do
  let _ ← w.records l.owner
  pure { w with signals := fun s => (w.signals s).filter (fun k => decide (k ≠ l)) }

/-- The value `calloc` gives a fresh `struct sway_view`: all fields zero. -/
def zero_view : sway_view :=
  { type := .SWAY_WL_SHELL_VIEW, swayc := none, surface := none, width := 0, height := 0,
    wlr_xdg_surface_v6 := none, sway_xdg_surface_v6 := none,
    iface := { get_prop := none, set_size := none, set_position := none,
               set_activated := none, close := none } }

/-- The value `calloc` gives a fresh adapter record: all fields zero. -/
def zero_record : sway_xdg_surface_v6 :=
  { view := none, commit_notify := none, map_notify := none, unmap_notify := none,
    destroy_notify := none, pending_width := 0, pending_height := 0 }

/-- The `calloc(1, sizeof(struct sway_xdg_surface_v6))`: `NULL` when the
allocator is exhausted, else a fresh zeroed record. -/
def calloc_record (w : World) : Ptr × World :=
  if w.calloc_fuel = 0 then (none, w) else
    (some w.next_record,
     { w with
        records := fun n => if n = w.next_record then some zero_record else w.records n
        next_record := w.next_record + 1
        calloc_fuel := w.calloc_fuel - 1 })

/-- The `calloc(1, sizeof(struct sway_view))`. -/
def calloc_view (w : World) : Ptr × World :=
  if w.calloc_fuel = 0 then (none, w) else
    (some w.next_view,
     { w with
        views := fun n => if n = w.next_view then some zero_view else w.views n
        next_view := w.next_view + 1
        calloc_fuel := w.calloc_fuel - 1 })

/-- The `free` of a view pointer: nothing for `NULL`, undefined for memory
that is not allocated. -/
def free_view (w : World) (p : Ptr) : Option World :=
  match p with
  | none => some w
  | some v =>
    match w.views v with
    | none => none
    | some _ => some (emit { w with views := fun n => if n = v then none else w.views n }
        (.free_view v))

/-- The `free` of a record pointer. -/
def free_record (w : World) (p : Ptr) : Option World :=
  match p with
  | none => some w
  | some s =>
    match w.records s with
    | none => none
    | some _ => some (emit { w with records := fun n => if n = s then none else w.records n }
        (.free_record s))

/-- A store into the view at address `v`. -/
def store_view (w : World) (v : Nat) (val : sway_view) : World :=
  { w with views := fun n => if n = v then some val else w.views n }

/-- A store into the adapter record at address `s`. -/
def store_record (w : World) (s : Nat) (val : sway_xdg_surface_v6) : World :=
  { w with records := fun n => if n = s then some val else w.records n }

/-- A store into the container at address `c`. -/
def store_container (w : World) (c : Nat) (val : sway_container) : World :=
  { w with containers := fun n => if n = c then some val else w.containers n }

/-- An assignment to fields of the view at `v` through its pointer: undefined
when the view is not allocated. -/
def write_view (w : World) (v : Nat) (f : sway_view → sway_view) : Option World :=
  (w.views v).map fun vw => store_view w v (f vw)

/-- An assignment to fields of the adapter record at `s` through its pointer. -/
def write_record (w : World) (s : Nat) (f : sway_xdg_surface_v6 → sway_xdg_surface_v6) :
    Option World :=
  (w.records s).map fun r => store_record w s (f r)

/-- An assignment to fields of the container at `c` through its pointer. -/
def write_container (w : World) (c : Nat) (f : sway_container → sway_container) :
    Option World :=
  (w.containers c).map fun cont => store_container w c (f cont)

/-- The read of `sway_surface->view` in the adapter record at `s`. -/
def record_view (w : World) (s : Nat) : Option Nat := do
  let sway_surface ← w.records s
  sway_surface.view

/-! ## The view capability operations (lines 14-68) -/

/-- The `assert_xdg` of the file: reads `view->type`. -/
def assert_xdg (w : World) (view : Nat) : Option (Bool × World) := do
  let vw ← w.views view
  pure (sway_assert w (decide (vw.type = .SWAY_XDG_SHELL_V6_VIEW)) .expected_xdg_shell_v6_view)

/-- The `get_prop` of the file; the result `none` is `NULL`. -/
def get_prop (w : World) (view : Nat) (prop : sway_view_prop) :
    Option (Option String × World) := do
  let r ← assert_xdg w view
  if r.1 = false then
    pure (none, r.2)
  else
    match prop with
    | .VIEW_PROP_TITLE => do
      let vw ← r.2.views view
      let xs ← vw.wlr_xdg_surface_v6
      let xdg ← r.2.xdg_surfaces xs
      let toplevel ← xdg.toplevel
      pure (toplevel.title, r.2)
    | .VIEW_PROP_APP_ID => do
      let vw ← r.2.views view
      let xs ← vw.wlr_xdg_surface_v6
      let xdg ← r.2.xdg_surfaces xs
      let toplevel ← xdg.toplevel
      pure (toplevel.app_id, r.2)
    | _ => pure (none, r.2)

/-- The `set_size` of the file. -/
def set_size (w : World) (view : Nat) (width height : Int) : Option World := do
  let r ← assert_xdg w view
  if r.1 = false then
    pure r.2
  else
    let vw ← r.2.views view
    let s ← vw.sway_xdg_surface_v6
    let w1 ← write_record r.2 s fun rc => { rc with pending_width := width }
    let vw1 ← w1.views view
    let s1 ← vw1.sway_xdg_surface_v6
    let w2 ← write_record w1 s1 fun rc => { rc with pending_height := height }
    let vw2 ← w2.views view
    pure (emit w2 (.wlr_xdg_toplevel_v6_set_size vw2.wlr_xdg_surface_v6 width height))

/-- The `set_position` of the file. -/
def set_position (w : World) (view : Nat) (ox oy : Int) : Option World := do
  let r ← assert_xdg w view
  if r.1 = false then
    pure r.2
  else
    let vw ← r.2.views view
    let c ← vw.swayc
    let w1 ← write_container r.2 c fun cont => { cont with x := ox }
    let vw1 ← w1.views view
    let c1 ← vw1.swayc
    write_container w1 c1 fun cont => { cont with y := oy }

/-- The `set_activated` of the file. -/
def set_activated (w : World) (view : Nat) (activated : Bool) : Option World := do
  let r ← assert_xdg w view
  if r.1 = false then
    pure r.2
  else
    let vw ← r.2.views view
    let surface := vw.wlr_xdg_surface_v6
    let s ← surface
    let xdg ← r.2.xdg_surfaces s
    if xdg.role = .WLR_XDG_SURFACE_V6_ROLE_TOPLEVEL then
      pure (emit r.2 (.wlr_xdg_toplevel_v6_set_activated surface activated))
    else
      pure r.2

/-- The `close` of the file. -/
def close (w : World) (view : Nat) : Option World := do
  let r ← assert_xdg w view
  if r.1 = false then
    pure r.2
  else
    let vw ← r.2.views view
    let surface := vw.wlr_xdg_surface_v6
    let s ← surface
    let xdg ← r.2.xdg_surfaces s
    if xdg.role = .WLR_XDG_SURFACE_V6_ROLE_TOPLEVEL then
      pure (emit r.2 (.wlr_xdg_surface_v6_send_close surface))
    else
      pure r.2

/-! ## The signal handlers (lines 70-118)

Each handler is given the address `s` of the adapter record its listener is a
member of (the result of `wl_container_of`). -/

/-- Modelled from the spec: `view_damage_from`, the "mark region dirty" call
of the damage pipeline, which is outside this file. -/
def view_damage_from (w : World) (view : Nat) : Option World := do
  let vw ← w.views view
  pure (emit w (.view_damage_from view vw))

/-- Modelled from the spec: `view_damage_whole`, the full-surface "mark region
dirty" call of the damage pipeline, which is outside this file. -/
def view_damage_whole (w : World) (view : Nat) : Option World := do
  let vw ← w.views view
  pure (emit w (.view_damage_whole view vw))

/-- The `handle_commit` of the file. -/
def handle_commit (w : World) (s : Nat) : Option World := do
  let view ← record_view w s
  let sway_surface ← w.records s
  let w1 ← write_view w view fun vw => { vw with width := sway_surface.pending_width }
  let sway_surface1 ← w1.records s
  let w2 ← write_view w1 view fun vw => { vw with height := sway_surface1.pending_height }
  view_damage_from w2 view

/-- The `handle_unmap` of the file. -/
def handle_unmap (w : World) (s : Nat) : Option World := do
  let view ← record_view w s
  let w1 ← view_damage_whole w view
  let view1 ← record_view w1 s
  let vw1 ← w1.views view1
  let w2 := container_view_destroy w1 vw1.swayc
  let view2 ← record_view w2 s
  let w3 ← write_view w2 view2 fun vw => { vw with swayc := none }
  let view3 ← record_view w3 s
  write_view w3 view3 fun vw => { vw with surface := none }

/-- The `handle_map` of the file. -/
def handle_map (w : World) (s : Nat) : Option World := do
  let view ← record_view w s
  let vw ← w.views view
  let xs ← vw.wlr_xdg_surface_v6
  let xdg ← w.xdg_surfaces xs
  let view0 ← record_view w s
  let w1 ← write_view w view0 fun vw0 => { vw0 with surface := xdg.surface }
  let vw1 ← w1.views view
  let w2 := container_view_destroy w1 vw1.swayc
  let focus := seat_get_focus_inactive w2
  let cont ← container_view_create focus.2 focus.1 view
  let w3 ← write_view cont.2 view fun vw3 => { vw3 with swayc := cont.1 }
  let c ← cont.1
  let node ← w3.containers c
  let w4 := arrange_windows w3 node.parent (-1) (-1)
  let w5 := sway_input_manager_set_focus w4 c
  let view5 ← record_view w5 s
  view_damage_whole w5 view5

/-- The `handle_destroy` of the file. -/
def handle_destroy (w : World) (s : Nat) : Option World := do
  let w1 ← wl_list_remove w { owner := s, member := .commit }
  let w2 ← wl_list_remove w1 { owner := s, member := .destroy }
  let view ← record_view w2 s
  let vw ← w2.views view
  let w3 := container_view_destroy w2 vw.swayc
  let sway_xdg_surface3 ← w3.records s
  let w4 ← free_view w3 sway_xdg_surface3.view
  free_record w4 (some s)

/-! ## The constructor (lines 120-171) -/

/-- The `handle_xdg_shell_v6_surface` of the file; `data` is the address of the
announced `wlr_xdg_surface_v6`. -/
def handle_xdg_shell_v6_surface (w : World) (data : Nat) : Option World := do
  let xdg_surface ← w.xdg_surfaces data
  if xdg_surface.role = .WLR_XDG_SURFACE_V6_ROLE_POPUP then
    pure w
  else
    let toplevel ← xdg_surface.toplevel
    let w1 := emit w (.log (.new_toplevel toplevel.title toplevel.app_id))
    let w2 := emit w1 (.wlr_xdg_surface_v6_ping (some data))
    let w3 := emit w2 (.wlr_xdg_toplevel_v6_set_maximized (some data) true)
    let sway_surface := calloc_record w3
    let a1 := sway_assert sway_surface.2 sway_surface.1.isSome .failed_to_allocate_surface
    if a1.1 = false then
      pure a1.2
    else
      let sway_view := calloc_view a1.2
      let a2 := sway_assert sway_view.2 sway_view.1.isSome .failed_to_allocate_view
      if a2.1 = false then
        pure a2.2
      else
        let v ← sway_view.1
        let s ← sway_surface.1
        let w4 ← write_view a2.2 v fun vw =>
          { vw with
            type := .SWAY_XDG_SHELL_V6_VIEW
            iface := { get_prop := some .get_prop, set_size := some .set_size,
                       set_position := some .set_position,
                       set_activated := some .set_activated, close := some .close }
            wlr_xdg_surface_v6 := some data
            sway_xdg_surface_v6 := some s }
        let w5 ← write_record w4 s fun rc => { rc with view := some v }
        let w6 ← write_record w5 s fun rc => { rc with commit_notify := some .handle_commit }
        let wlr_surface ← xdg_surface.surface
        let w7 := wl_signal_add w6 (.surface_commit wlr_surface) { owner := s, member := .commit }
        let w8 ← write_record w7 s fun rc => { rc with map_notify := some .handle_map }
        let w9 := wl_signal_add w8 (.xdg_map data) { owner := s, member := .map }
        let w10 ← write_record w9 s fun rc => { rc with unmap_notify := some .handle_unmap }
        let w11 := wl_signal_add w10 (.xdg_unmap data) { owner := s, member := .unmap }
        let w12 ← write_record w11 s fun rc => { rc with destroy_notify := some .handle_destroy }
        pure (wl_signal_add w12 (.xdg_destroy data) { owner := s, member := .destroy })

/-- The empty world: nothing allocated, nothing linked, no call made yet. -/
def World.empty : World :=
  { xdg_surfaces := fun _ => none, views := fun _ => none, records := fun _ => none,
    containers := fun _ => none, signals := fun _ => [], seat_focus_stack := [],
    next_view := 0, next_record := 0, next_container := 0, calloc_fuel := 0, trace := [] }

/-! ## Worlds used as concrete inputs -/

/-- A world with one wl-shell view at address 0 that is shown as container 0. -/
def world_wl_shell_view : World :=
  { World.empty with
    views := fun n => if n = 0 then some { zero_view with swayc := some 0 } else none
    containers := fun n => if n = 0 then
      some { parent := none, sway_view := some 0, x := 3, y := 4 } else none
    next_view := 1
    next_container := 1 }


/-- A world in which wlroots announces the toplevel surface 0 (title
"Terminal"), with room for two allocations, and whose seat reports the
workspace container 0 as its inactive focus. -/
def world_announced : World :=
  { World.empty with
    xdg_surfaces := fun n => if n = 0 then
      some { role := .WLR_XDG_SURFACE_V6_ROLE_TOPLEVEL,
             toplevel := some { title := some "Terminal", app_id := some "term" },
             surface := some 0 } else none
    containers := fun n => if n = 0 then
      some { parent := none, sway_view := none, x := 0, y := 0 } else none
    seat_focus_stack := [0]
    next_container := 1
    calloc_fuel := 2 }

/-- The world after the constructor has run on surface 0 of `world_announced`
(view 0 and adapter record 0 exist). -/
def world_created : World :=
  (handle_xdg_shell_v6_surface world_announced 0).getD World.empty

/-- The view the constructor leaves at address 0 of `world_created`. -/
def view_created : sway_view :=
  { zero_view with
    type := .SWAY_XDG_SHELL_V6_VIEW
    iface := { get_prop := some .get_prop, set_size := some .set_size,
               set_position := some .set_position,
               set_activated := some .set_activated, close := some .close }
    wlr_xdg_surface_v6 := some 0
    sway_xdg_surface_v6 := some 0 }

/-- The adapter record the constructor leaves at address 0 of `world_created`. -/
def record_created : sway_xdg_surface_v6 :=
  { zero_record with
    view := some 0
    commit_notify := some .handle_commit
    map_notify := some .handle_map
    unmap_notify := some .handle_unmap
    destroy_notify := some .handle_destroy }

/-- The client of a protocol surface sets the title of its toplevel (an action
of the environment, not of the file). -/
def client_set_title (w : World) (xs : Nat) (t : String) : World :=
  { w with xdg_surfaces := fun n =>
      if n = xs then
        (w.xdg_surfaces xs).map fun xdg =>
          { xdg with toplevel := xdg.toplevel.map fun tl => { tl with title := some t } }
      else w.xdg_surfaces n }

/-- A world in which a surface that has no role yet is announced: surface 0 has
the role `WLR_XDG_SURFACE_V6_ROLE_NONE`. -/
def world_announced_none : World :=
  { World.empty with
    xdg_surfaces := fun n => if n = 0 then
      some { role := .WLR_XDG_SURFACE_V6_ROLE_NONE,
             toplevel := some { title := none, app_id := none },
             surface := some 0 } else none
    calloc_fuel := 2 }

/-- A world in which a surface that has no role yet, and no toplevel either, is
announced. -/
def world_announced_bare : World :=
  { World.empty with
    xdg_surfaces := fun n => if n = 0 then
      some { role := .WLR_XDG_SURFACE_V6_ROLE_NONE, toplevel := none,
             surface := some 0 } else none
    calloc_fuel := 2 }

/-- A world in which the popup surface 0 is announced. -/
def world_announced_popup : World :=
  { World.empty with
    xdg_surfaces := fun n => if n = 0 then
      some { role := .WLR_XDG_SURFACE_V6_ROLE_POPUP, toplevel := none,
             surface := some 0 } else none
    calloc_fuel := 2 }

/-- The world after the view of `world_created` has been mapped: it is shown as
container 1, a child of the workspace container 0. -/
def world_shown : World :=
  (handle_map world_created 0).getD World.empty

/-- A world in which wlroots has announced two toplevel surfaces, 0 and 1, with
room for four allocations; the seat reports the workspace container 0. -/
def world_two_announced : World :=
  { World.empty with
    xdg_surfaces := fun n => if n = 0 ∨ n = 1 then
      some { role := .WLR_XDG_SURFACE_V6_ROLE_TOPLEVEL,
             toplevel := some { title := some "A", app_id := none },
             surface := some n } else none
    containers := fun n => if n = 0 then
      some { parent := none, sway_view := none, x := 0, y := 0 } else none
    seat_focus_stack := [0]
    next_container := 1
    calloc_fuel := 4 }

/-- The world after the constructor has run on both surfaces of
`world_two_announced` (view A is view 0, view B is view 1) and view A has
been mapped: A is shown as container 1. -/
def world_a_shown : World :=
  ((((handle_xdg_shell_v6_surface world_two_announced 0).bind
      fun w => handle_xdg_shell_v6_surface w 1).bind
      fun w => handle_map w 0)).getD World.empty

/-! ## Signal sequences -/

/-- The four signals an adapter record is subscribed to. -/
inductive lifecycle_signal where
  | commit | map | unmap | destroy
  deriving DecidableEq, Repr

/-- The delivery of one signal to the adapter record `s`: the handler the
constructor stores in the `notify` of the matching listener is called. -/
def deliver (w : World) (s : Nat) : lifecycle_signal → Option World
  | .commit => handle_commit w s
  | .map => handle_map w s
  | .unmap => handle_unmap w s
  | .destroy => handle_destroy w s

/-- The delivery of a sequence of signals, one handler after the other. -/
def run (w : World) (s : Nat) : List lifecycle_signal → Option World
  | [] => some w
  | x :: rest => (deliver w s x).bind fun w1 => run w1 s rest

/-- The states of the lifecycle, as the specification names them. -/
inductive lifecycle_state where
  | Created | Shown | Hidden | Destroyed
  deriving DecidableEq, Repr

/-- The transitions of the specification's lifecycle: map from Created or
Hidden, unmap from Shown, commit in every state but Destroyed, destroy from
every state but Destroyed; nothing else is legal. -/
def lifecycle_next : lifecycle_state → lifecycle_signal → Option lifecycle_state
  | .Destroyed, _ => none
  | st, .commit => some st
  | _, .destroy => some .Destroyed
  | .Created, .map => some .Shown
  | .Hidden, .map => some .Shown
  | .Shown, .unmap => some .Hidden
  | _, _ => none

/-- A signal sequence is legal from a state when every signal in it is a
transition of the lifecycle. -/
def legal_from : lifecycle_state → List lifecycle_signal → Bool
  | _, [] => true
  | st, x :: rest =>
    match lifecycle_next st x with
    | none => false
    | some st1 => legal_from st1 rest

/-- Whether a signal is a map or an unmap. -/
def is_map_or_unmap : lifecycle_signal → Bool
  | .map => true
  | .unmap => true
  | _ => false

/-- The view is in the Shown state after the signals `p`: the last map or
unmap signal was a map, and destroy has not run. -/
def shown_after (p : List lifecycle_signal) : Bool :=
  decide ((p.filter is_map_or_unmap).getLast? = some .map) && !(p.contains .destroy)

/-- The nodes `container_view_create` has returned for the view, oldest first. -/
def created_nodes (view : Nat) (trace : List Event) : List Nat :=
  trace.filterMap fun e =>
    match e with
    | .container_view_create _ v _ c => if v = view then c else none
    | _ => none

/-- The nodes that have been passed to `container_view_destroy`. -/
def destroyed_nodes (trace : List Event) : List Nat :=
  trace.filterMap fun e =>
    match e with
    | .container_view_destroy node => node
    | _ => none

/-- The view owns at most one live node: every node created for it, except
possibly the latest, has been passed to `container_view_destroy`. -/
def at_most_one_live_node (view : Nat) (trace : List Event) : Prop :=
  ∀ n ∈ (created_nodes view trace).dropLast, n ∈ destroyed_nodes trace

/-- The view has a node: it is allocated and its `swayc` is not `NULL`. -/
def has_node (w : World) (view : Nat) : Prop :=
  ∃ vw c, w.views view = some vw ∧ vw.swayc = some c

/-- The invariant of an adapter that has not been destroyed: the record `s`
and the view are allocated and name each other, the view has the xdg-shell-v6
type tag and names a protocol surface, `view->swayc` is set exactly when `mapped`, and of the nodes created
for the view all but the one in `view->swayc` have been destroyed. -/
def adapter_inv (w : World) (s view : Nat) (mapped : Bool) : Prop :=
  ∃ r vw xs xdg, w.records s = some r ∧ r.view = some view ∧ w.views view = some vw ∧
    vw.type = .SWAY_XDG_SHELL_V6_VIEW ∧ vw.sway_xdg_surface_v6 = some s ∧
    vw.wlr_xdg_surface_v6 = some xs ∧ w.xdg_surfaces xs = some xdg ∧
    vw.swayc.isSome = mapped ∧
    at_most_one_live_node view w.trace ∧
    (vw.swayc = none → ∀ n ∈ created_nodes view w.trace, n ∈ destroyed_nodes w.trace) ∧
    (∀ c, vw.swayc = some c → (created_nodes view w.trace).getLast? = some c)

/-- The state of an adapter after destroy: the view is freed and every node
created for it has been destroyed. -/
def adapter_gone (w : World) (view : Nat) : Prop :=
  w.views view = none ∧
    ∀ n ∈ created_nodes view w.trace, n ∈ destroyed_nodes w.trace

/-! # Theorems -/

/-! ## Capability operations on a view of another shell -/

/-- C7: on a view whose type tag is not `SWAY_XDG_SHELL_V6_VIEW` every
capability operation of the file is a no-op: `get_prop` returns `NULL` for
every property kind, and `set_size`, `set_position`, `set_activated` and
`close` return the world they were given with nothing changed but the trace,
which gains the diagnostic of the failed assertion and no call to the
surface. -/
theorem wrong_type_is_no_op (w : World) (view : Nat) (vw : sway_view)
    (hv : w.views view = some vw) (ht : vw.type ≠ .SWAY_XDG_SHELL_V6_VIEW) :
    (∀ prop, get_prop w view prop
        = some (none, emit w (.log .expected_xdg_shell_v6_view))) ∧
    (∀ width height, set_size w view width height
        = some (emit w (.log .expected_xdg_shell_v6_view))) ∧
    (∀ ox oy, set_position w view ox oy
        = some (emit w (.log .expected_xdg_shell_v6_view))) ∧
    (∀ activated, set_activated w view activated
        = some (emit w (.log .expected_xdg_shell_v6_view))) ∧
    close w view = some (emit w (.log .expected_xdg_shell_v6_view)) ∧
    (emit w (.log .expected_xdg_shell_v6_view)).views = w.views ∧
    (emit w (.log .expected_xdg_shell_v6_view)).records = w.records ∧
    (emit w (.log .expected_xdg_shell_v6_view)).containers = w.containers ∧
    (emit w (.log .expected_xdg_shell_v6_view)).trace
        = w.trace ++ [.log .expected_xdg_shell_v6_view] := by
  have ha : assert_xdg w view = some (false, emit w (.log .expected_xdg_shell_v6_view)) := by
    simp [assert_xdg, hv, sway_assert, ht]
  refine ⟨?_, ?_, ?_, ?_, ?_, rfl, rfl, rfl, rfl⟩
  · intro prop; simp [get_prop, ha]
  · intro width height; simp [set_size, ha]
  · intro ox oy; simp [set_position, ha]
  · intro activated; simp [set_activated, ha]
  · simp [close, ha]

/-- C7 at the wl-shell view of `world_wl_shell_view`. -/
theorem wrong_type_is_no_op_witness :
    world_wl_shell_view.views 0 = some { zero_view with swayc := some 0 } ∧
    ({ zero_view with swayc := some 0 } : sway_view).type ≠ .SWAY_XDG_SHELL_V6_VIEW ∧
    set_position world_wl_shell_view 0 7 9
      = some (emit world_wl_shell_view (.log .expected_xdg_shell_v6_view)) :=
  ⟨rfl, by decide,
   (wrong_type_is_no_op world_wl_shell_view 0 { zero_view with swayc := some 0 } rfl
      (by decide)).2.2.1 7 9⟩

/-! ## Properties read from the surface -/

/-- C8: on an xdg-shell-v6 view `get_prop` returns, for `VIEW_PROP_TITLE`, the
title stored on the toplevel of the view's surface at the time of the call
and, for `VIEW_PROP_APP_ID`, its app_id; every other property kind gives
`NULL`; nothing is cached: once the client has set the title to `t`, the
next query returns `t`. No call changes the world. -/
theorem get_prop_reads_live (w : World) (view xs : Nat) (vw : sway_view)
    (xdg : wlr_xdg_surface_v6) (tl : wlr_xdg_toplevel_v6)
    (hv : w.views view = some vw) (ht : vw.type = .SWAY_XDG_SHELL_V6_VIEW)
    (hx : vw.wlr_xdg_surface_v6 = some xs) (hs : w.xdg_surfaces xs = some xdg)
    (htl : xdg.toplevel = some tl) :
    get_prop w view .VIEW_PROP_TITLE = some (tl.title, w) ∧
    get_prop w view .VIEW_PROP_APP_ID = some (tl.app_id, w) ∧
    (∀ prop, prop ≠ .VIEW_PROP_TITLE → prop ≠ .VIEW_PROP_APP_ID →
      get_prop w view prop = some (none, w)) ∧
    (∀ t : String, get_prop (client_set_title w xs t) view .VIEW_PROP_TITLE
      = some (some t, client_set_title w xs t)) := by
  have ha : assert_xdg w view = some (true, w) := by
    simp [assert_xdg, hv, sway_assert, ht]
  refine ⟨?_, ?_, ?_, ?_⟩
  · simp [get_prop, ha, hv, hx, hs, htl]
  · simp [get_prop, ha, hv, hx, hs, htl]
  · intro prop h1 h2
    cases prop <;> simp_all [get_prop]
  · intro t
    have ha2 : assert_xdg (client_set_title w xs t) view
        = some (true, client_set_title w xs t) := by
      simp [assert_xdg, client_set_title, hv, sway_assert, ht]
    simp [get_prop, ha2]
    simp [client_set_title, hv, hx, hs, htl]

/-- C8 on the view of `world_created`: after the client has renamed the
toplevel to "Editor", the title query answers "Editor". -/
theorem get_prop_reads_live_witness :
    world_created.views 0 = some view_created ∧
    view_created.type = .SWAY_XDG_SHELL_V6_VIEW ∧
    (get_prop (client_set_title world_created 0 "Editor") 0 .VIEW_PROP_TITLE).map (·.1)
      = some (some "Editor") :=
  ⟨rfl, rfl, by
    rw [(get_prop_reads_live world_created 0 0 view_created
      { role := .WLR_XDG_SURFACE_V6_ROLE_TOPLEVEL,
        toplevel := some { title := some "Terminal", app_id := some "term" },
        surface := some 0 }
      { title := some "Terminal", app_id := some "term" } rfl rfl rfl rfl rfl).2.2.2 "Editor"]
    rfl⟩

/-! ## Requested and committed size -/

/-- The world `set_size` leaves on an xdg-shell-v6 view: both pending fields of
the adapter record are written, then the size is forwarded to the surface. -/
theorem set_size_eq (w : World) (view s : Nat) (vw : sway_view) (r : sway_xdg_surface_v6)
    (hv : w.views view = some vw) (ht : vw.type = .SWAY_XDG_SHELL_V6_VIEW)
    (hs : vw.sway_xdg_surface_v6 = some s) (hr : w.records s = some r)
    (width height : Int) :
    set_size w view width height
      = some (emit (store_record w s { r with pending_width := width, pending_height := height })
          (.wlr_xdg_toplevel_v6_set_size vw.wlr_xdg_surface_v6 width height)) := by
  have ha : assert_xdg w view = some (true, w) := by
    simp [assert_xdg, hv, sway_assert, ht]
  simp [set_size, ha, hv, hs, hr, write_record, store_record, emit]
  funext n
  by_cases hn : n = s <;> simp [hn]

/-- The world `handle_commit` leaves: the pending size of the record is copied
into the view, then `view_damage_from` is called on the view. -/
theorem handle_commit_eq (w : World) (s view : Nat) (r : sway_xdg_surface_v6)
    (vw : sway_view) (hr : w.records s = some r) (hrv : r.view = some view)
    (hv : w.views view = some vw) :
    handle_commit w s
      = some (emit (store_view w view
            { vw with width := r.pending_width, height := r.pending_height })
          (.view_damage_from view
            { vw with width := r.pending_width, height := r.pending_height })) := by
  simp [handle_commit, record_view, write_view, hr, hrv, hv, store_view, view_damage_from, emit]
  funext n
  by_cases hn : n = view <;> simp [hn]

/-- C3: on an xdg-shell-v6 view (the view names its adapter record and the
record names the view, as the constructor links them), `set_size view width
height` followed by a commit signal leaves `view->width = width` and
`view->height = height`, for all integers. -/
theorem set_size_then_commit (w : World) (view s : Nat) (vw : sway_view)
    (r : sway_xdg_surface_v6)
    (hv : w.views view = some vw) (ht : vw.type = .SWAY_XDG_SHELL_V6_VIEW)
    (hs : vw.sway_xdg_surface_v6 = some s) (hr : w.records s = some r)
    (hrv : r.view = some view) (width height : Int) :
    ∃ w1 w2 vw2, set_size w view width height = some w1 ∧
      handle_commit w1 s = some w2 ∧
      w2.views view = some vw2 ∧ vw2.width = width ∧ vw2.height = height := by
  have h1 := set_size_eq w view s vw r hv ht hs hr width height
  have h2 := handle_commit_eq
    (emit (store_record w s { r with pending_width := width, pending_height := height })
      (.wlr_xdg_toplevel_v6_set_size vw.wlr_xdg_surface_v6 width height))
    s view { r with pending_width := width, pending_height := height }
    vw (by simp [emit, store_record]) hrv (by simp [emit, store_record, hv])
  exact ⟨_, _, { vw with width := width, height := height }, h1, h2,
    by simp [emit, store_view], rfl, rfl⟩

/-- C3 on the view of `world_created` with the size 800 x 600. -/
theorem set_size_then_commit_witness :
    world_created.views 0 = some view_created ∧
    world_created.records 0 = some record_created ∧
    ∃ w1 w2 vw2, set_size world_created 0 800 600 = some w1 ∧
      handle_commit w1 0 = some w2 ∧
      w2.views 0 = some vw2 ∧ vw2.width = 800 ∧ vw2.height = 600 :=
  ⟨rfl, rfl,
   set_size_then_commit world_created 0 0 view_created record_created rfl rfl rfl rfl rfl
     800 600⟩

/-! ## Commit on a view that is not mapped -/

/-- C4, as stated, fails: the view of `world_created` has never been mapped
(`view->swayc` is `NULL`), and the commit handler calls `view_damage_from` on
it. -/
theorem commit_unmapped_calls_damage :
    (world_created.views 0).map (·.swayc) = some none ∧
    (handle_commit world_created 0).map (fun w => w.trace.drop world_created.trace.length)
      = some [.view_damage_from 0 view_created] :=
  ⟨rfl, rfl⟩

/-- C4, amended: a commit signal delivered to a view that is not mapped
(`view->swayc` is `NULL`) copies the pending size of the record into
`view->width` and `view->height` and then makes exactly one call, to
`view_damage_from`, on that view (whose `swayc` is still `NULL`); it makes no
call to `view_damage_whole`. -/
theorem commit_unmapped (w : World) (s view : Nat) (r : sway_xdg_surface_v6)
    (vw : sway_view) (hr : w.records s = some r) (hrv : r.view = some view)
    (hv : w.views view = some vw) (hc : vw.swayc = none) :
    ∃ w1 vw1, handle_commit w s = some w1 ∧
      w1.views view = some vw1 ∧
      vw1.width = r.pending_width ∧ vw1.height = r.pending_height ∧ vw1.swayc = none ∧
      w1.trace = w.trace ++ [.view_damage_from view vw1] := by
  refine ⟨_, { vw with width := r.pending_width, height := r.pending_height },
    handle_commit_eq w s view r vw hr hrv hv, ?_, rfl, rfl, hc, ?_⟩
  · simp [emit, store_view]
  · simp [emit, store_view]

/-- C4, amended, on the never-mapped view of `world_created`. -/
theorem commit_unmapped_witness :
    world_created.records 0 = some record_created ∧
    world_created.views 0 = some view_created ∧
    ∃ w1 vw1, handle_commit world_created 0 = some w1 ∧
      w1.views 0 = some vw1 ∧
      vw1.width = record_created.pending_width ∧
      vw1.height = record_created.pending_height ∧ vw1.swayc = none ∧
      w1.trace = world_created.trace ++ [.view_damage_from 0 vw1] :=
  ⟨rfl, rfl, commit_unmapped world_created 0 0 record_created view_created rfl rfl rfl rfl⟩

/-! ## Surfaces that are not toplevels -/

/-- C5, as stated, fails for the role `WLR_XDG_SURFACE_V6_ROLE_NONE`: the
surface is pinged and asked to maximize, and a view, an adapter record and
the four listeners are set up for it. (When such a surface has no toplevel
either, the diagnostic of line 130 dereferences `NULL`: the surface is not
rejected then either.) -/
theorem role_none_is_not_rejected :
    (world_announced_none.xdg_surfaces 0).map (·.role)
      = some .WLR_XDG_SURFACE_V6_ROLE_NONE ∧
    (handle_xdg_shell_v6_surface world_announced_none 0).map
        (fun w => (w.trace, w.views 0, w.records 0, w.signals (.xdg_map 0)))
      = some ([.log (.new_toplevel none none), .wlr_xdg_surface_v6_ping (some 0),
               .wlr_xdg_toplevel_v6_set_maximized (some 0) true],
              some view_created, some record_created,
              [{ owner := 0, member := .map }]) ∧
    (handle_xdg_shell_v6_surface world_announced_bare 0).isNone = true :=
  ⟨rfl, rfl, rfl⟩

/-- C5, amended: for an announced surface whose role is the popup role the
constructor returns at once: the world is the one it was given, so there is
no new view, no adapter record, no listener, no tree node and no call at all
(no ping, no set_maximized, not even a diagnostic). -/
theorem popup_is_rejected (w : World) (data : Nat) (xdg : wlr_xdg_surface_v6)
    (hx : w.xdg_surfaces data = some xdg)
    (hrole : xdg.role = .WLR_XDG_SURFACE_V6_ROLE_POPUP) :
    handle_xdg_shell_v6_surface w data = some w := by
  unfold handle_xdg_shell_v6_surface
  rw [hx]
  show (if xdg.role = .WLR_XDG_SURFACE_V6_ROLE_POPUP then some w else _) = some w
  rw [if_pos hrole]

/-- C5, amended, on the popup surface of `world_announced_popup`. -/
theorem popup_is_rejected_witness :
    world_announced_popup.xdg_surfaces 0
      = some { role := .WLR_XDG_SURFACE_V6_ROLE_POPUP, toplevel := none, surface := some 0 } ∧
    handle_xdg_shell_v6_surface world_announced_popup 0 = some world_announced_popup :=
  ⟨rfl, popup_is_rejected world_announced_popup 0 _ rfl rfl⟩

/-! ## Map -/

/-- The world `handle_map` leaves, in any state of the view: the surface is
bound, the current node (if any) is handed to `container_view_destroy`, a new
node is created under the seat's inactive focus and stored in `view->swayc`,
the parent of the new node is arranged, the new node gets the focus and the
whole view is damaged. -/
theorem handle_map_eq (w : World) (s view xs : Nat) (r : sway_xdg_surface_v6)
    (vw : sway_view) (xdg : wlr_xdg_surface_v6)
    (hr : w.records s = some r) (hrv : r.view = some view)
    (hv : w.views view = some vw) (hx : vw.wlr_xdg_surface_v6 = some xs)
    (hs : w.xdg_surfaces xs = some xdg) :
    handle_map w s = some
      { w with
        views := fun n => if n = view then
          some { vw with surface := xdg.surface, swayc := some w.next_container }
          else w.views n
        containers := fun n => if n = w.next_container then
          some { parent := (w.seat_focus_stack.filter
                    (fun c => decide (some c ≠ vw.swayc))).head?,
                 sway_view := some view, x := 0, y := 0 }
          else if some n = vw.swayc then none else w.containers n
        seat_focus_stack := w.next_container ::
          (w.seat_focus_stack.filter (fun c => decide (some c ≠ vw.swayc))).filter
            (fun c => decide (c ≠ w.next_container))
        next_container := w.next_container + 1
        trace := w.trace ++
          [.container_view_destroy vw.swayc,
           .seat_get_focus_inactive
              (w.seat_focus_stack.filter (fun c => decide (some c ≠ vw.swayc))).head?,
           .container_view_create
              (w.seat_focus_stack.filter (fun c => decide (some c ≠ vw.swayc))).head?
              view { vw with surface := xdg.surface } (some w.next_container),
           .arrange_windows
              (w.seat_focus_stack.filter (fun c => decide (some c ≠ vw.swayc))).head?
              (-1) (-1),
           .sway_input_manager_set_focus (some w.next_container),
           .view_damage_whole view
              { vw with surface := xdg.surface, swayc := some w.next_container }] } := by
  simp [handle_map, record_view, write_view, hr, hrv, hv, hx, hs, store_view,
    container_view_destroy,
    seat_get_focus_inactive, container_view_create, arrange_windows,
    sway_input_manager_set_focus, view_damage_whole, emit]
  funext n
  by_cases hn : n = view <;> simp [hn]

/-- C6, as stated, fails: the view of `world_shown` is shown as container 1;
a further map signal hands container 1 to `container_view_destroy`, creates
container 2 and stores it in `view->swayc`, and makes the arrangement, focus
and damage calls. -/
theorem map_while_shown_is_not_ignored :
    (world_shown.views 0).map (·.swayc) = some (some 1) ∧
    (handle_map world_shown 0).map
        (fun w => ((w.views 0).map (·.swayc), w.containers 1,
                   w.trace.drop world_shown.trace.length))
      = some (some (some 2), none,
          [.container_view_destroy (some 1),
           .seat_get_focus_inactive (some 0),
           .container_view_create (some 0) 0
              { view_created with surface := some 0, swayc := some 1 } (some 2),
           .arrange_windows (some 0) (-1) (-1),
           .sway_input_manager_set_focus (some 2),
           .view_damage_whole 0 { view_created with surface := some 0, swayc := some 2 }]) :=
  ⟨rfl, rfl⟩

/-- C6, amended: a map signal delivered while the view is already shown
(`view->swayc` is the node `c`) is handled like any other map signal:
`handle_map` binds `view->surface`, hands `c` to `container_view_destroy`,
creates a new node under the seat's inactive focus, stores it in
`view->swayc`, and makes the arrangement, focus and damage calls; afterwards
`c` is gone and the new node is the only node of the view. -/
theorem map_while_shown (w : World) (s view xs c : Nat) (r : sway_xdg_surface_v6)
    (vw : sway_view) (xdg : wlr_xdg_surface_v6)
    (hr : w.records s = some r) (hrv : r.view = some view)
    (hv : w.views view = some vw) (hx : vw.wlr_xdg_surface_v6 = some xs)
    (hs : w.xdg_surfaces xs = some xdg)
    (hc : vw.swayc = some c) (hfresh : c < w.next_container) :
    ∃ w1 node, handle_map w s = some w1 ∧
      w1.views view
        = some { vw with surface := xdg.surface, swayc := some w.next_container } ∧
      w1.containers c = none ∧
      w1.containers w.next_container = some node ∧ node.sway_view = some view ∧
      w1.trace = w.trace ++
        [.container_view_destroy (some c),
         .seat_get_focus_inactive
            (w.seat_focus_stack.filter (fun n => decide (n ≠ c))).head?,
         .container_view_create
            (w.seat_focus_stack.filter (fun n => decide (n ≠ c))).head?
            view { vw with surface := xdg.surface } (some w.next_container),
         .arrange_windows node.parent (-1) (-1),
         .sway_input_manager_set_focus (some w.next_container),
         .view_damage_whole view
            { vw with surface := xdg.surface, swayc := some w.next_container }] := by
  have hne : c ≠ w.next_container := Nat.ne_of_lt hfresh
  refine ⟨_, { parent := (w.seat_focus_stack.filter
      (fun n => decide (some n ≠ vw.swayc))).head?, sway_view := some view, x := 0, y := 0 },
    handle_map_eq w s view xs r vw xdg hr hrv hv hx hs, ?_, ?_, ?_, rfl, ?_⟩
  · simp
  · simp [hc, hne]
  · simp
  · simp [hc]

/-- C6, amended, on the shown view of `world_shown`. -/
theorem map_while_shown_witness :
    world_shown.records 0 = some record_created ∧
    world_shown.views 0 = some { view_created with surface := some 0, swayc := some 1 } ∧
    1 < world_shown.next_container ∧
    ∃ w1, handle_map world_shown 0 = some w1 ∧
      (w1.views 0).map (·.swayc) = some (some 2) ∧ w1.containers 1 = none :=
  ⟨rfl, rfl, by decide, by
    obtain ⟨w1, node, h1, h2, h3, _⟩ :=
      map_while_shown world_shown 0 0 0 1 record_created
        { view_created with surface := some 0, swayc := some 1 }
        { role := .WLR_XDG_SURFACE_V6_ROLE_TOPLEVEL,
          toplevel := some { title := some "Terminal", app_id := some "term" },
          surface := some 0 }
        rfl rfl rfl rfl rfl rfl (by decide)
    exact ⟨w1, h1, by rw [h2]; rfl, h3⟩⟩

/-- C9, as stated, fails in its fourth step: the seat of `world_created`
reports the workspace container 0, whose parent is `NULL`; the map handler
creates container 1 under it and asks for the arrangement of container 0 (the
parent of the new node, which is the anchor itself), not of the parent of the
anchor. -/
theorem map_arranges_parent_of_new_node :
    world_created.seat_focus_stack.head? = some 0 ∧
    (world_created.containers 0).map (·.parent) = some none ∧
    (handle_map world_created 0).map
        (fun w => ((w.containers 1).map (·.parent),
                   w.trace.drop world_created.trace.length))
      = some (some (some 0),
          [.container_view_destroy none,
           .seat_get_focus_inactive (some 0),
           .container_view_create (some 0) 0 { view_created with surface := some 0 } (some 1),
           .arrange_windows (some 0) (-1) (-1),
           .sway_input_manager_set_focus (some 1),
           .view_damage_whole 0 { view_created with surface := some 0, swayc := some 1 }]) :=
  ⟨rfl, rfl, rfl⟩

/-- C9, amended: for a map signal delivered while the view has no node
(`view->swayc` is `NULL`), `handle_map` performs, in this order: bind
`view->surface` to the protocol surface; (hand `NULL` to
`container_view_destroy`;) obtain the anchor from `seat_get_focus_inactive`;
create the node with `container_view_create(anchor, view)`, which sees the
surface bound and no node yet, and store it in `view->swayc`; request the
arrangement of the parent of the new node; give the focus to the new node;
damage the whole view, which by then has its node. Afterwards the new node is
the inactive focus of the seat, so a view mapped next is created with this
node as its anchor and takes the focus in turn. -/
theorem map_steps (w : World) (s view xs : Nat) (r : sway_xdg_surface_v6)
    (vw : sway_view) (xdg : wlr_xdg_surface_v6)
    (hr : w.records s = some r) (hrv : r.view = some view)
    (hv : w.views view = some vw) (hx : vw.wlr_xdg_surface_v6 = some xs)
    (hs : w.xdg_surfaces xs = some xdg) (hc : vw.swayc = none) :
    ∃ w1 node, handle_map w s = some w1 ∧
      w1.views view
        = some { vw with surface := xdg.surface, swayc := some w.next_container } ∧
      w1.containers w.next_container = some node ∧ node.sway_view = some view ∧
      w1.trace = w.trace ++
        [.container_view_destroy none,
         .seat_get_focus_inactive w.seat_focus_stack.head?,
         .container_view_create w.seat_focus_stack.head?
            view { vw with surface := xdg.surface, swayc := none } (some w.next_container),
         .arrange_windows node.parent (-1) (-1),
         .sway_input_manager_set_focus (some w.next_container),
         .view_damage_whole view
            { vw with surface := xdg.surface, swayc := some w.next_container }] ∧
      w1.seat_focus_stack.head? = some w.next_container ∧
      w1.next_container = w.next_container + 1 := by
  refine ⟨_, { parent := (w.seat_focus_stack.filter
      (fun n => decide (some n ≠ vw.swayc))).head?, sway_view := some view, x := 0, y := 0 },
    handle_map_eq w s view xs r vw xdg hr hrv hv hx hs, ?_, ?_, rfl, ?_, ?_, rfl⟩
  · simp
  · simp
  · simp [hc]
  · simp

/-- C9, amended, on view B of `world_a_shown`: view A is shown as container
1, which is the inactive focus of the seat; mapping B creates container 2
with container 1 as its anchor and leaves the focus on container 2. -/
theorem map_steps_witness :
    (world_a_shown.views 0).map (·.swayc) = some (some 1) ∧
    world_a_shown.seat_focus_stack.head? = some 1 ∧
    (world_a_shown.views 1).map (·.swayc) = some none ∧
    ∃ w1 seen, handle_map world_a_shown 1 = some w1 ∧
      Event.container_view_create (some 1) 1 seen (some 2) ∈ w1.trace ∧
      w1.seat_focus_stack.head? = some 2 :=
  ⟨rfl, rfl, rfl, by
    obtain ⟨w1, node, h1, _, _, _, h5, h6, _⟩ :=
      map_steps world_a_shown 1 1 1
        { record_created with view := some 1 }
        { view_created with wlr_xdg_surface_v6 := some 1, sway_xdg_surface_v6 := some 1 }
        { role := .WLR_XDG_SURFACE_V6_ROLE_TOPLEVEL,
          toplevel := some { title := some "A", app_id := none },
          surface := some 1 }
        rfl rfl rfl rfl rfl rfl
    refine ⟨w1, ({ view_created with wlr_xdg_surface_v6 := some 1
                                     sway_xdg_surface_v6 := some 1
                                     surface := some 1 } : sway_view), h1, ?_, h6⟩
    rw [h5]
    exact List.mem_append_right _ (List.mem_cons_of_mem _ (List.mem_cons_of_mem _
      (List.mem_cons_self _ _)))⟩

/-! ## Unmap, destroy and the constructor -/

/-- The world `handle_unmap` leaves: the whole view is damaged, its node is
handed to `container_view_destroy`, and `swayc` and `surface` are cleared. -/
theorem handle_unmap_eq (w : World) (s view : Nat) (r : sway_xdg_surface_v6)
    (vw : sway_view) (hr : w.records s = some r) (hrv : r.view = some view)
    (hv : w.views view = some vw) :
    handle_unmap w s = some
      { w with
        views := fun n => if n = view then
          some { vw with swayc := none, surface := none } else w.views n
        containers := fun n => if some n = vw.swayc then none else w.containers n
        seat_focus_stack := w.seat_focus_stack.filter (fun c => decide (some c ≠ vw.swayc))
        trace := w.trace ++
          [.view_damage_whole view vw, .container_view_destroy vw.swayc] } := by
  simp [handle_unmap, record_view, write_view, hr, hrv, hv, store_view, container_view_destroy,
    view_damage_whole, emit]
  funext n
  by_cases hn : n = view <;> simp [hn]

/-- The world `handle_destroy` leaves: the commit and the destroy listener are
unlinked, the node of the view is handed to `container_view_destroy`, then the
view and the record are freed. -/
theorem handle_destroy_eq (w : World) (s view : Nat) (r : sway_xdg_surface_v6)
    (vw : sway_view) (hr : w.records s = some r) (hrv : r.view = some view)
    (hv : w.views view = some vw) :
    handle_destroy w s = some
      { w with
        signals := fun k => ((w.signals k).filter
            (fun l => decide (l ≠ { owner := s, member := .commit }))).filter
            (fun l => decide (l ≠ { owner := s, member := .destroy }))
        views := fun n => if n = view then none else w.views n
        records := fun n => if n = s then none else w.records n
        containers := fun n => if some n = vw.swayc then none else w.containers n
        seat_focus_stack := w.seat_focus_stack.filter (fun c => decide (some c ≠ vw.swayc))
        trace := w.trace ++
          [.container_view_destroy vw.swayc, .free_view view, .free_record s] } := by
  simp [handle_destroy, record_view, hr, hrv, hv, wl_list_remove, container_view_destroy, free_view,
    free_record, emit]

/-- The world the constructor leaves for a surface it accepts (not a popup,
with a toplevel and a `wlr_surface`, and two allocations that succeed). -/
theorem handle_xdg_shell_v6_surface_eq (w : World) (data sf : Nat)
    (xdg : wlr_xdg_surface_v6) (tl : wlr_xdg_toplevel_v6)
    (hx : w.xdg_surfaces data = some xdg)
    (hrole : xdg.role ≠ .WLR_XDG_SURFACE_V6_ROLE_POPUP)
    (htl : xdg.toplevel = some tl) (hsf : xdg.surface = some sf)
    (hfuel : 2 ≤ w.calloc_fuel) :
    handle_xdg_shell_v6_surface w data = some
      { w with
        views := fun n => if n = w.next_view then
          some { zero_view with
            type := .SWAY_XDG_SHELL_V6_VIEW
            iface := { get_prop := some .get_prop, set_size := some .set_size,
                       set_position := some .set_position,
                       set_activated := some .set_activated, close := some .close }
            wlr_xdg_surface_v6 := some data
            sway_xdg_surface_v6 := some w.next_record }
          else w.views n
        records := fun n => if n = w.next_record then
          some { zero_record with
            view := some w.next_view
            commit_notify := some .handle_commit
            map_notify := some .handle_map
            unmap_notify := some .handle_unmap
            destroy_notify := some .handle_destroy }
          else w.records n
        signals := fun k =>
          if k = .xdg_destroy data then
            w.signals k ++ [{ owner := w.next_record, member := .destroy }]
          else if k = .xdg_unmap data then
            w.signals k ++ [{ owner := w.next_record, member := .unmap }]
          else if k = .xdg_map data then
            w.signals k ++ [{ owner := w.next_record, member := .map }]
          else if k = .surface_commit sf then
            w.signals k ++ [{ owner := w.next_record, member := .commit }]
          else w.signals k
        next_view := w.next_view + 1
        next_record := w.next_record + 1
        calloc_fuel := w.calloc_fuel - 1 - 1
        trace := w.trace ++
          [.log (.new_toplevel tl.title tl.app_id), .wlr_xdg_surface_v6_ping (some data),
           .wlr_xdg_toplevel_v6_set_maximized (some data) true] } := by
  have h0 : w.calloc_fuel ≠ 0 := by omega
  have h1 : w.calloc_fuel - 1 ≠ 0 := by omega
  simp [handle_xdg_shell_v6_surface, hx, hrole, htl, hsf, calloc_record, calloc_view,
    sway_assert, emit, write_view, write_record, store_view, store_record, wl_signal_add, h0, h1,
    zero_view, zero_record]
  refine ⟨?_, ?_, ?_⟩
  · funext n
    by_cases hn : n = w.next_view <;> simp [hn]
  · funext n
    by_cases hn : n = w.next_record <;> simp [hn]
  · funext k
    cases k <;> simp

/-- C10: for a destroy signal in any state of the view (shown or not),
`handle_destroy` runs to its end without touching freed memory, and the calls
it makes are, in this order: `container_view_destroy` on the node the view has
at that moment (`view->swayc`), `free` of the view, `free` of the adapter
record; each of the two is freed exactly once and is gone afterwards. -/
theorem destroy_order (w : World) (s view : Nat) (r : sway_xdg_surface_v6)
    (vw : sway_view) (hr : w.records s = some r) (hrv : r.view = some view)
    (hv : w.views view = some vw) :
    ∃ w1, handle_destroy w s = some w1 ∧
      w1.trace = w.trace ++
        [.container_view_destroy vw.swayc, .free_view view, .free_record s] ∧
      (w1.trace.drop w.trace.length).count (.free_view view) = 1 ∧
      (w1.trace.drop w.trace.length).count (.free_record s) = 1 ∧
      w1.views view = none ∧ w1.records s = none ∧
      (∀ c, vw.swayc = some c → w1.containers c = none) := by
  refine ⟨_, handle_destroy_eq w s view r vw hr hrv hv, rfl, ?_, ?_, ?_, ?_, ?_⟩
  · simp [List.count_cons]
  · simp [List.count_cons]
  · simp
  · simp
  · intro c hc
    simp [hc]

/-- C10 on the shown view of `world_shown`, destroyed without an unmap. -/
theorem destroy_order_witness :
    world_shown.records 0 = some record_created ∧
    world_shown.views 0 = some { view_created with surface := some 0, swayc := some 1 } ∧
    ∃ w1, handle_destroy world_shown 0 = some w1 ∧
      w1.trace = world_shown.trace ++
        [.container_view_destroy (some 1), .free_view 0, .free_record 0] ∧
      w1.containers 1 = none :=
  ⟨rfl, rfl, by
    obtain ⟨w1, h1, h2, _, _, _, _, h7⟩ :=
      destroy_order world_shown 0 0 record_created
        { view_created with surface := some 0, swayc := some 1 } rfl rfl rfl
    exact ⟨w1, h1, h2, h7 1 rfl⟩⟩

/-- C2 does not hold of the code: after the constructor has run on the
surface of `world_announced` and `handle_destroy` has freed the adapter
record 0, the commit and the destroy listener are unlinked, but the map and
the unmap listener of the freed record are still linked into `events.map` and
`events.unmap` of the surface; a map signal dispatched to the handler of the
freed record is a use after free. -/
theorem destroy_leaves_map_and_unmap_linked :
    (handle_destroy world_created 0).map
        (fun w => (w.records 0, w.signals (.surface_commit 0), w.signals (.xdg_destroy 0),
                   w.signals (.xdg_map 0), w.signals (.xdg_unmap 0), handle_map w 0))
      = some (none, [], [], [{ owner := 0, member := .map }],
              [{ owner := 0, member := .unmap }], none) :=
  rfl

/-! ## One node per view -/

/-- The nodes created over an appended trace. -/
theorem created_nodes_append (view : Nat) (t1 t2 : List Event) :
    created_nodes view (t1 ++ t2) = created_nodes view t1 ++ created_nodes view t2 := by
  simp [created_nodes, List.filterMap_append]

/-- The nodes destroyed over an appended trace. -/
theorem destroyed_nodes_append (t1 t2 : List Event) :
    destroyed_nodes (t1 ++ t2) = destroyed_nodes t1 ++ destroyed_nodes t2 := by
  simp [destroyed_nodes, List.filterMap_append]

/-- Once the node in `view->swayc` is destroyed too, every node created for
the view has been destroyed. -/
theorem all_destroyed_of_inv (cr ds : List Nat) (p : Ptr)
    (h1 : ∀ n ∈ cr.dropLast, n ∈ ds)
    (h2 : p = none → ∀ n ∈ cr, n ∈ ds)
    (h3 : ∀ c, p = some c → cr.getLast? = some c) :
    ∀ n ∈ cr, n ∈ ds ++ p.toList := by
  intro n hn
  cases p with
  | none => simpa using h2 rfl n hn
  | some c =>
    have hl := h3 c rfl
    have hsplit : cr.dropLast ++ [c] = cr := List.dropLast_append_getLast? c hl
    rw [← hsplit] at hn
    rcases List.mem_append.mp hn with h | h
    · exact List.mem_append_left _ (h1 n h)
    · simp at h
      simp [h]

/-- A run over an appended sequence is the run over the first part followed by
the run over the second. -/
theorem run_append (w : World) (s : Nat) (p q : List lifecycle_signal) :
    run w s (p ++ q) = (run w s p).bind fun w1 => run w1 s q := by
  induction p generalizing w with
  | nil => simp [run]
  | cons x rest ih =>
    simp only [List.cons_append, run]
    cases deliver w s x with
    | none => simp
    | some w1 => simpa using ih w1

/-- The commit handler keeps the invariant. -/
theorem commit_keeps_inv (w : World) (s view : Nat) (mapped : Bool)
    (h : adapter_inv w s view mapped) :
    ∃ w1, handle_commit w s = some w1 ∧ adapter_inv w1 s view mapped := by
  obtain ⟨r, vw, xs, xdg, hr, hrv, hv, ht, hsx, hx, hs, hm, h1, h2, h3⟩ := h
  refine ⟨_, handle_commit_eq w s view r vw hr hrv hv, r,
    { vw with width := r.pending_width, height := r.pending_height }, xs, xdg, ?_⟩
  refine ⟨by simpa [emit, store_view] using hr, hrv, by simp [emit, store_view], ht, hsx, hx,
    by simpa [emit, store_view] using hs, hm, ?_, ?_, ?_⟩
  · simpa [at_most_one_live_node, emit, store_view, created_nodes_append,
      destroyed_nodes_append, created_nodes, destroyed_nodes] using h1
  · simpa [emit, store_view, created_nodes_append,
      destroyed_nodes_append, created_nodes, destroyed_nodes] using h2
  · simpa [emit, store_view, created_nodes_append, created_nodes] using h3

/-- The map handler establishes the invariant with a node. -/
theorem map_keeps_inv (w : World) (s view : Nat) (mapped : Bool)
    (h : adapter_inv w s view mapped) :
    ∃ w1, handle_map w s = some w1 ∧ adapter_inv w1 s view true := by
  obtain ⟨r, vw, xs, xdg, hr, hrv, hv, ht, hsx, hx, hs, hm, h1, h2, h3⟩ := h
  have hall := all_destroyed_of_inv _ _ vw.swayc h1 h2 h3
  refine ⟨_, handle_map_eq w s view xs r vw xdg hr hrv hv hx hs, r,
    { vw with surface := xdg.surface, swayc := some w.next_container }, xs, xdg, ?_⟩
  refine ⟨hr, hrv, by simp, ht, hsx, hx, hs, rfl, ?_, ?_, ?_⟩
  · intro n hn
    have hn1 : n ∈ created_nodes view w.trace := by
      simpa [created_nodes_append, created_nodes, List.dropLast_concat] using hn
    have := hall n hn1
    cases hsw : vw.swayc <;>
      simp_all [destroyed_nodes_append, destroyed_nodes]
  · simp
  · intro c hc
    simp at hc
    simp [created_nodes_append, created_nodes, hc]

/-- The unmap handler establishes the invariant without a node. -/
theorem unmap_keeps_inv (w : World) (s view : Nat) (mapped : Bool)
    (h : adapter_inv w s view mapped) :
    ∃ w1, handle_unmap w s = some w1 ∧ adapter_inv w1 s view false := by
  obtain ⟨r, vw, xs, xdg, hr, hrv, hv, ht, hsx, hx, hs, hm, h1, h2, h3⟩ := h
  have hall := all_destroyed_of_inv _ _ vw.swayc h1 h2 h3
  have hall2 : ∀ n ∈ created_nodes view (w.trace ++
      [.view_damage_whole view vw, .container_view_destroy vw.swayc]),
      n ∈ destroyed_nodes (w.trace ++
        [.view_damage_whole view vw, .container_view_destroy vw.swayc]) := by
    intro n hn
    have hn1 : n ∈ created_nodes view w.trace := by
      simpa [created_nodes_append, created_nodes] using hn
    have := hall n hn1
    cases hsw : vw.swayc <;>
      simp_all [destroyed_nodes_append, destroyed_nodes]
  refine ⟨_, handle_unmap_eq w s view r vw hr hrv hv, r,
    { vw with swayc := none, surface := none }, xs, xdg, ?_⟩
  refine ⟨hr, hrv, by simp, ht, hsx, hx, hs, rfl, ?_, ?_, ?_⟩
  · intro n hn
    exact hall2 n (List.mem_of_mem_dropLast hn)
  · intro _
    exact hall2
  · intro c hc
    simp at hc

/-- The destroy handler ends the adapter with every node destroyed. -/
theorem destroy_ends_inv (w : World) (s view : Nat) (mapped : Bool)
    (h : adapter_inv w s view mapped) :
    ∃ w1, handle_destroy w s = some w1 ∧ adapter_gone w1 view := by
  obtain ⟨r, vw, xs, xdg, hr, hrv, hv, ht, hsx, hx, hs, hm, h1, h2, h3⟩ := h
  have hall := all_destroyed_of_inv _ _ vw.swayc h1 h2 h3
  refine ⟨_, handle_destroy_eq w s view r vw hr hrv hv, by simp, ?_⟩
  intro n hn
  have hn1 : n ∈ created_nodes view w.trace := by
    simpa [created_nodes_append, created_nodes] using hn
  have := hall n hn1
  cases hsw : vw.swayc <;>
    simp_all [destroyed_nodes_append, destroyed_nodes]

/-- An initial part of a legal sequence is legal. -/
theorem legal_from_left (p q : List lifecycle_signal) (st : lifecycle_state)
    (h : legal_from st (p ++ q) = true) : legal_from st p = true := by
  induction p generalizing st with
  | nil => rfl
  | cons x rest ih =>
    simp only [List.cons_append, legal_from] at h ⊢
    cases hn : lifecycle_next st x with
    | none => simp [hn] at h
    | some st1 =>
      simp only [hn] at h ⊢
      exact ih st1 h

/-- Nothing is legal after destroy. -/
theorem legal_from_destroyed (q : List lifecycle_signal)
    (h : legal_from .Destroyed q = true) : q = [] := by
  cases q with
  | nil => rfl
  | cons x rest => simp [legal_from, lifecycle_next] at h

/-- In a legal sequence no signal follows destroy. -/
theorem destroy_is_last (p : List lifecycle_signal) (x : lifecycle_signal)
    (st : lifecycle_state) (h : legal_from st (p ++ [x]) = true) :
    lifecycle_signal.destroy ∉ p := by
  induction p generalizing st with
  | nil => simp
  | cons y rest ih =>
    simp only [List.cons_append, legal_from] at h
    cases hn : lifecycle_next st y with
    | none => simp [hn] at h
    | some st1 =>
      simp only [hn] at h
      intro hmem
      rcases List.mem_cons.mp hmem with hy | hy
      · subst hy
        have hst : st1 = .Destroyed := by
          cases st <;> simp [lifecycle_next] at hn <;> exact hn.symm
        rw [hst] at h
        have := legal_from_destroyed _ h
        simp at this
      · exact ih st1 h hy

/-- The state of the adapter after a legal signal sequence. -/
theorem run_legal (w1 : World) (s view : Nat) (h0 : adapter_inv w1 s view false)
    (p : List lifecycle_signal) (hlegal : legal_from .Created p = true) :
    ∃ w, run w1 s p = some w ∧
      (lifecycle_signal.destroy ∈ p → adapter_gone w view) ∧
      (lifecycle_signal.destroy ∉ p → adapter_inv w s view
        (decide ((p.filter is_map_or_unmap).getLast? = some .map))) := by
  induction p using List.reverseRecOn with
  | nil => exact ⟨w1, rfl, by simp, fun _ => by simpa using h0⟩
  | append_singleton l a ih =>
    have hl := legal_from_left l [a] _ hlegal
    have hnd := destroy_is_last l a _ hlegal
    obtain ⟨w, hrun, -, hinv⟩ := ih hl
    have hinv := hinv hnd
    cases a with
    | commit =>
      obtain ⟨w2, h2, hinv2⟩ := commit_keeps_inv w s view _ hinv
      refine ⟨w2, by simp [run_append, hrun, run, deliver, h2], ?_, ?_⟩
      · intro hm
        simp [hnd] at hm
      · intro _
        simpa [List.filter_append, is_map_or_unmap] using hinv2
    | map =>
      obtain ⟨w2, h2, hinv2⟩ := map_keeps_inv w s view _ hinv
      refine ⟨w2, by simp [run_append, hrun, run, deliver, h2], ?_, ?_⟩
      · intro hm
        simp [hnd] at hm
      · intro _
        simpa [List.filter_append, is_map_or_unmap] using hinv2
    | unmap =>
      obtain ⟨w2, h2, hinv2⟩ := unmap_keeps_inv w s view _ hinv
      refine ⟨w2, by simp [run_append, hrun, run, deliver, h2], ?_, ?_⟩
      · intro hm
        simp [hnd] at hm
      · intro _
        simpa [List.filter_append, is_map_or_unmap] using hinv2
    | destroy =>
      obtain ⟨w2, h2, hgone⟩ := destroy_ends_inv w s view _ hinv
      refine ⟨w2, by simp [run_append, hrun, run, deliver, h2], fun _ => hgone, ?_⟩
      intro hm
      simp at hm

/-- C1: for every surface the constructor accepts (not a popup, with a
toplevel and a `wlr_surface`, both allocations succeeding, the address of
the new view not yet used for a node) and every legal signal sequence delivered to the handlers of its adapter record, after each
handler has returned (that is, after every initial part `p` of the sequence)
the view owns at most one live node (every node `container_view_create` made
for it, except possibly the latest, has been passed to
`container_view_destroy`), and `view->swayc` is non-null exactly when the
view is Shown (the last map or unmap signal was a map and destroy has not
run); when it is not Shown, every node made for it has been destroyed. -/
theorem one_node_when_shown (w0 : World) (data sf : Nat)
    (xdg : wlr_xdg_surface_v6) (tl : wlr_xdg_toplevel_v6)
    (hx : w0.xdg_surfaces data = some xdg)
    (hrole : xdg.role ≠ .WLR_XDG_SURFACE_V6_ROLE_POPUP)
    (htl : xdg.toplevel = some tl) (hsf : xdg.surface = some sf)
    (hfuel : 2 ≤ w0.calloc_fuel)
    (hfresh : created_nodes w0.next_view w0.trace = [])
    (sigs : List lifecycle_signal) (hlegal : legal_from .Created sigs = true) :
    ∃ w1, handle_xdg_shell_v6_surface w0 data = some w1 ∧
      ∀ p q, sigs = p ++ q →
        ∃ w, run w1 w0.next_record p = some w ∧
          at_most_one_live_node w0.next_view w.trace ∧
          (has_node w w0.next_view ↔ shown_after p = true) ∧
          (shown_after p = false →
            ∀ n ∈ created_nodes w0.next_view w.trace, n ∈ destroyed_nodes w.trace) := by
  refine ⟨_, handle_xdg_shell_v6_surface_eq w0 data sf xdg tl hx hrole htl hsf hfuel, ?_⟩
  intro p q hpq
  have hp : legal_from .Created p = true := legal_from_left p q _ (hpq ▸ hlegal)
  have h0 : adapter_inv
      { w0 with
        views := fun n => if n = w0.next_view then
          some { zero_view with
            type := .SWAY_XDG_SHELL_V6_VIEW
            iface := { get_prop := some .get_prop, set_size := some .set_size,
                       set_position := some .set_position,
                       set_activated := some .set_activated, close := some .close }
            wlr_xdg_surface_v6 := some data
            sway_xdg_surface_v6 := some w0.next_record }
          else w0.views n
        records := fun n => if n = w0.next_record then
          some { zero_record with
            view := some w0.next_view
            commit_notify := some .handle_commit
            map_notify := some .handle_map
            unmap_notify := some .handle_unmap
            destroy_notify := some .handle_destroy }
          else w0.records n
        signals := fun k =>
          if k = .xdg_destroy data then
            w0.signals k ++ [{ owner := w0.next_record, member := .destroy }]
          else if k = .xdg_unmap data then
            w0.signals k ++ [{ owner := w0.next_record, member := .unmap }]
          else if k = .xdg_map data then
            w0.signals k ++ [{ owner := w0.next_record, member := .map }]
          else if k = .surface_commit sf then
            w0.signals k ++ [{ owner := w0.next_record, member := .commit }]
          else w0.signals k
        next_view := w0.next_view + 1
        next_record := w0.next_record + 1
        calloc_fuel := w0.calloc_fuel - 1 - 1
        trace := w0.trace ++
          [.log (.new_toplevel tl.title tl.app_id), .wlr_xdg_surface_v6_ping (some data),
           .wlr_xdg_toplevel_v6_set_maximized (some data) true] }
      w0.next_record w0.next_view false := by
    have hcr : created_nodes w0.next_view (w0.trace ++
        [.log (.new_toplevel tl.title tl.app_id), .wlr_xdg_surface_v6_ping (some data),
         .wlr_xdg_toplevel_v6_set_maximized (some data) true]) = [] := by
      rw [created_nodes_append, hfresh]
      rfl
    refine ⟨{ zero_record with
          view := some w0.next_view
          commit_notify := some .handle_commit
          map_notify := some .handle_map
          unmap_notify := some .handle_unmap
          destroy_notify := some .handle_destroy },
      { zero_view with
          type := .SWAY_XDG_SHELL_V6_VIEW
          iface := { get_prop := some .get_prop, set_size := some .set_size,
                     set_position := some .set_position,
                     set_activated := some .set_activated, close := some .close }
          wlr_xdg_surface_v6 := some data
          sway_xdg_surface_v6 := some w0.next_record },
      data, xdg, by simp, rfl, by simp, rfl, rfl, rfl, hx, rfl, ?_, ?_, ?_⟩
    · intro n hn
      simp only [hcr] at hn
      simp at hn
    · intro _ n hn
      simp only [hcr] at hn
      simp at hn
    · intro c hc
      simp [zero_view] at hc
  obtain ⟨w, hrun, hgone, hinv⟩ := run_legal _ _ _ h0 p hp
  refine ⟨w, hrun, ?_⟩
  by_cases hd : lifecycle_signal.destroy ∈ p
  · obtain ⟨hv, hall⟩ := hgone hd
    refine ⟨fun n hn => hall n (List.mem_of_mem_dropLast hn), ?_, fun _ => hall⟩
    constructor
    · rintro ⟨vw, c, h1, _⟩
      simp [hv] at h1
    · intro hs
      simp [shown_after, hd] at hs
  · obtain ⟨r, vw, xs, xdg1, hr, hrv, hv, -, -, hx1, hs1, hm, h1, h2, h3⟩ := hinv hd
    refine ⟨h1, ?_, ?_⟩
    · constructor
      · rintro ⟨vw1, c, hv1, hc⟩
        rw [hv] at hv1
        cases hv1
        simp [hc] at hm
        simp [shown_after, hd, hm]
      · intro hs
        simp [shown_after, hd] at hs
        simp [hs] at hm
        obtain ⟨c, hc⟩ := Option.isSome_iff_exists.mp hm
        exact ⟨vw, c, hv, hc⟩
    · intro hs
      apply h2
      simp [shown_after, hd] at hs
      simp [hs] at hm
      exact hm

/-- C1 on the surface of `world_announced` and the sequence map, commit,
unmap, map, destroy. -/
theorem one_node_when_shown_witness :
    world_announced.xdg_surfaces 0
      = some { role := .WLR_XDG_SURFACE_V6_ROLE_TOPLEVEL,
               toplevel := some { title := some "Terminal", app_id := some "term" },
               surface := some 0 } ∧
    2 ≤ world_announced.calloc_fuel ∧
    created_nodes world_announced.next_view world_announced.trace = [] ∧
    legal_from .Created [.map, .commit, .unmap, .map, .destroy] = true ∧
    ∃ w1, handle_xdg_shell_v6_surface world_announced 0 = some w1 ∧
      ∀ p q, [lifecycle_signal.map, .commit, .unmap, .map, .destroy] = p ++ q →
        ∃ w, run w1 world_announced.next_record p = some w ∧
          at_most_one_live_node world_announced.next_view w.trace ∧
          (has_node w world_announced.next_view ↔ shown_after p = true) ∧
          (shown_after p = false →
            ∀ n ∈ created_nodes world_announced.next_view w.trace,
              n ∈ destroyed_nodes w.trace) :=
  ⟨rfl, by decide, rfl, by decide,
   one_node_when_shown world_announced 0 0 _ _ rfl (by decide) rfl rfl (by decide) rfl
     [.map, .commit, .unmap, .map, .destroy] (by decide)⟩

end XdgShellV6
